import Mathlib

/-!
Verification of the RAG orchestration core of azure-openai-example-scenarios.

The repository contains two near-duplicate pipeline variants plus two
Streamlit front ends:

  * src/rag/utilities.py            (RetrievalAugmentedGenerationClient) — namespace RagClient
  * src/orchestration/utilities.py  (OrchestrationClient)                — namespace OrchClient
  * app/main.py                     (product-info app)                   — namespace ProductApp
  * src/app/main.py                 (orchestration app)                  — namespace OrchApp

Python strings are modelled as lists of characters (`Str`).  Network calls
are modelled by an oracle (`Net`) giving each upstream call its outcome:
`none` stands for a requests-level failure (an exception raised by
`requests.post` or `response.raise_for_status`).  Python exceptions are
modelled with `Except PyErr`; functions that, in the source, catch their own
exceptions and return a sentinel (`None` / `False`) are modelled with
`Option`.
-/

/-- A Python `str`, modelled as its list of characters. -/
abbrev Str := List Char

/-- Python exception kinds that can arise in the embedded code paths:
`request` models `requests.exceptions.RequestException` (raised by
`requests.post` / `raise_for_status`), `keyErr` a `KeyError` from a dict
subscript on a missing key, `typeErr` the `TypeError` from iterating a
non-iterable, and `indexErr` an `IndexError` from indexing an empty list. -/
inductive PyErr
  | request
  | keyErr
  | typeErr
  | indexErr
deriving DecidableEq, Repr

/-- A Python value that is either a `str` or the constant `False`.  The
orchestration client appends `False` as a message content when the
generation call fails, so message contents cannot be plain strings. -/
inductive PyVal
  | str (s : Str)
  | pyFalse
deriving DecidableEq, Repr

/-- Python `str(v)`: used where an f-string interpolates a value. -/
def PyVal.interp : PyVal → Str
  | .str s => s
  | .pyFalse => "False".data

/-- A raw document as found in the search response `value` array: a JSON
object that may or may not carry each of the three expected fields
(a missing field makes the corresponding dict subscript raise `KeyError`). -/
structure RawDoc where
  title : Option Str
  path : Option Str
  chunk : Option Str
deriving DecidableEq, Repr

/-- Outcome oracle for the four upstream HTTP calls made during one
pipeline run: query reformulation (chat call), embedding, search, and
answer generation (chat call).  `none` means the call raised a
requests-level error. -/
structure Net where
  chatQueryResult : Option Str
  embeddingResult : Option (List Int)
  searchResult : Option (List RawDoc)
  chatAnswerResult : Option Str

/-- A fully projected retrieved document (all three fields present). -/
structure Doc where
  title : Str
  path : Str
  chunk : Str
deriving DecidableEq, Repr

/-- Whether `pat` is a prefix of `t` (Python `str.startswith` on the
remaining text, used to model `str.replace`). -/
def leadsWith : List Char → List Char → Bool
  | [], _ => true
  | _ :: _, [] => false
  | p :: ps, c :: cs => p = c && leadsWith ps cs

/-- Fuel-driven worker for `pyReplace`; the fuel is an upper bound on the
length of the text, so it never runs out when called through `pyReplace`. -/
def pyReplaceFuel (old new : List Char) : Nat → List Char → List Char
  | _, [] => []
  | 0, t => t
  | fuel + 1, c :: rest =>
    if leadsWith old (c :: rest) && !old.isEmpty then
      new ++ pyReplaceFuel old new fuel ((c :: rest).drop old.length)
    else
      c :: pyReplaceFuel old new fuel rest

/-- Python `text.replace(old, new)`: replaces every non-overlapping
occurrence of `old`, scanning left to right.  (The sources never call it
with an empty `old`; for `old = []` this returns the text unchanged.) -/
def pyReplace (old new t : List Char) : List Char :=
  pyReplaceFuel old new t.length t

/-- The characters of Python `string.punctuation`; the characters that are
delicate to write literally are given by code point (34 `"`, 39 apostrophe,
92 backslash, 96 backtick, 123 and 125 the braces). -/
def pyPunctuation : List Char :=
  ['!', Char.ofNat 34, '#', '$', '%', '&', Char.ofNat 39, '(', ')', '*',
   '+', ',', '-', '.', '/', ':', ';', '<', '=', '>', '?', '@', '[',
   Char.ofNat 92, ']', Char.ofNat 94, '_', Char.ofNat 96, Char.ofNat 123,
   '|', Char.ofNat 125, Char.ofNat 126]

/-- Python `str.split()` whitespace (the ASCII part: space, tab, newline,
carriage return, vertical tab, form feed; the inputs at issue are ASCII). -/
def isSpaceChar (c : Char) : Bool :=
  c = ' ' || c = Char.ofNat 9 || c = Char.ofNat 10 || c = Char.ofNat 13 ||
  c = Char.ofNat 11 || c = Char.ofNat 12

/-- Worker for `splitWs`, accumulating the current word reversed. -/
def splitWsAux : List Char → List Char → List (List Char)
  | [], acc => if acc.isEmpty then [] else [acc.reverse]
  | c :: rest, acc =>
    if isSpaceChar c then
      if acc.isEmpty then splitWsAux rest []
      else acc.reverse :: splitWsAux rest []
    else splitWsAux rest (c :: acc)

/-- Python `text.split()` with no argument: splits on runs of whitespace
and never yields an empty word. -/
def splitWs (t : List Char) : List (List Char) := splitWsAux t []

/-- Python `" ".join(words)`. -/
def joinSpace : List (List Char) → List Char
  | [] => []
  | [w] => w
  | w :: ws => w ++ ' ' :: joinSpace ws

/-- The word list of `nltk.corpus.stopwords.words("english")`.  The NLTK
entries that contain an apostrophe (youre, dont, shouldve, arent, couldnt,
didnt, doesnt, hadnt, hasnt, havent, isnt, mightnt, mustnt, neednt, shant,
shouldnt, wasnt, werent, wont, wouldnt and the contracted pronoun forms,
all written in NLTK with the apostrophe) are omitted here: the code strips
every punctuation character, the apostrophe included, from the text before
the stop-word test, so no word of the processed text can ever equal one of
those entries. -/
def nltkStopwords : List Str :=
  ["i", "me", "my", "myself", "we", "our", "ours", "ourselves", "you",
   "your", "yours", "yourself", "yourselves", "he", "him", "his",
   "himself", "she", "her", "hers", "herself", "it", "its", "itself",
   "they", "them", "their", "theirs", "themselves", "what", "which",
   "who", "whom", "this", "that", "these", "those", "am", "is", "are",
   "was", "were", "be", "been", "being", "have", "has", "had", "having",
   "do", "does", "did", "doing", "a", "an", "the", "and", "but", "if",
   "or", "because", "as", "until", "while", "of", "at", "by", "for",
   "with", "about", "against", "between", "into", "through", "during",
   "before", "after", "above", "below", "to", "from", "up", "down", "in",
   "out", "on", "off", "over", "under", "again", "further", "then",
   "once", "here", "there", "when", "where", "why", "how", "all", "any",
   "both", "each", "few", "more", "most", "other", "some", "such", "no",
   "nor", "not", "only", "own", "same", "so", "than", "too", "very", "s",
   "t", "can", "will", "just", "don", "should", "now", "d", "ll", "m",
   "o", "re", "ve", "y", "ain", "aren", "couldn", "didn", "doesn",
   "hadn", "hasn", "haven", "isn", "ma", "mightn", "mustn", "needn",
   "shan", "shouldn", "wasn", "weren", "won", "wouldn"].map String.data

namespace RagClient

/-- The inner `preprocess_text` of `augment_prompt`
(src/rag/utilities.py, lines 186-190): lower-case the text, delete every
`string.punctuation` character (`str.translate`), split on whitespace, drop
the NLTK English stop words and re-join with single spaces. -/
def preprocess_text (text : Str) : Str :=
  let lowered := text.map Char.toLower
  let stripped := lowered.filter (fun c => !(pyPunctuation.contains c))
  joinSpace ((splitWs stripped).filter (fun w => !(nltkStopwords.contains w)))

/-- One serialized source line of the augmented prompt
(src/rag/utilities.py, line 195):
`f"{doc['title']} :: {doc['path']} :: {preprocess_text(doc['chunk'])} ||\n"`. -/
def sourceRecord (d : Doc) : Str :=
  d.title ++ " :: ".data ++ d.path ++ " :: ".data ++
    preprocess_text d.chunk ++ " ||\n".data

/-- `RetrievalAugmentedGenerationClient.augment_prompt`
(src/rag/utilities.py, lines 172-203): the prompt is the question, a
`Sources:` header, and the concatenation of one record per document in
the order the documents were supplied. -/
def augment_prompt (question : Str) (retrieved_documents : List Doc) : Str :=
  question ++ "\nSources:\n".data ++ (retrieved_documents.map sourceRecord).flatten

end RagClient

/-!
The citation regex.  Both front ends scan the answer with the Python
pattern `\[([^\]]*.md)\]` (the dot is unescaped, so it matches any
character but a newline).  The Python engine matches leftmost-first and
the starred class greedily with backtracking, so a match starting at a
given `[` has the shape: a run of non-`]` characters (as long as
possible), one arbitrary non-newline character, the literal `md`, and the
closing `]`; the group is everything between the brackets. -/

/-- Whether, `k` characters into `u` (the text after an opening bracket),
the tail has the shape `c, m, d, ]` with `c` not a newline — i.e. the
starred class having consumed `k` characters, the rest of the pattern
matches here. -/
def citeTokenAt (u : List Char) (k : Nat) : Bool :=
  match u.drop k with
  | c :: 'm' :: 'd' :: ']' :: _ => c != Char.ofNat 10
  | _ => false

/-- Backtracking search for the group length: try the greedy budget `k`
first and count down, exactly as the Python engine does. -/
def tryK (u : List Char) : Nat → Option Nat
  | 0 => if citeTokenAt u 0 then some 0 else none
  | k + 1 => if citeTokenAt u (k + 1) then some (k + 1) else tryK u k

/-- Fuel-driven worker for `findAllCitations`: scan the text left to
right; at each `[` attempt a match (the group may consume at most the
run of non-`]` characters, then one more character); on success emit the
group and resume after the match, otherwise move one character on. -/
def findAllFuel : Nat → List Char → List (List Char)
  | 0, _ => []
  | _, [] => []
  | fuel + 1, c :: rest =>
    if c = '[' then
      match tryK rest (rest.takeWhile (fun x => x != ']')).length with
      | some k => rest.take (k + 3) :: findAllFuel fuel (rest.drop (k + 4))
      | none => findAllFuel fuel rest
    else findAllFuel fuel rest

/-- Python `re.findall(r"\[([^\]]*.md)\]", text)`: the list of captured
groups of the non-overlapping matches, left to right. -/
def findAllCitations (t : List Char) : List (List Char) :=
  findAllFuel t.length t

/-- Fuel-driven worker for `subCitations`. -/
def subCiteFuel : Nat → List Char → List Char
  | 0, t => t
  | _, [] => []
  | fuel + 1, c :: rest =>
    if c = '[' then
      match tryK rest (rest.takeWhile (fun x => x != ']')).length with
      | some k =>
          "``".data ++ rest.take (k + 3) ++ "``".data ++
            subCiteFuel fuel (rest.drop (k + 4))
      | none => c :: subCiteFuel fuel rest
    else c :: subCiteFuel fuel rest

/-- Python `re.sub(regex, r"``\1``", text)` for the citation regex: each
match is replaced by its group wrapped in double backticks. -/
def subCitations (t : List Char) : List Char :=
  subCiteFuel t.length t

/-- One entry of the `sources` / `references` list handed to the two
`replace_references` functions: a dict carrying a title and a path (the
dicts built by both pipelines carry exactly these two keys). -/
structure Source where
  title : Str
  path : Str
deriving DecidableEq, Repr

namespace OrchApp

/-- Worker for the `for reference in references` loop of
`replace_references` (src/app/main.py inside src/, lines 58-69): each
iteration replaces in the ORIGINAL `text` (not in the running result) and
rebinds `modified_text`; `acc` is the current value of `modified_text`
(`none` while still unbound).  A failed lookup
(`list(filter(...))[0]` on no match) raises `IndexError`, which aborts
the loop; `none` is returned for that case as well, and the caller maps
it to the original text (for the unbound case via `UnboundLocalError`,
for the lookup case via the `except` clause — both return `text`). -/
def replaceLoop (text : Str) (sources : List Source) :
    List Str → Option Str → Option Str
  | [], acc => acc
  | r :: rs, _ =>
    match sources.filter (fun s => s.title = r) with
    | [] => none
    | s :: _ =>
      let m :=
        if s.path.isEmpty then
          pyReplace ("[".data ++ r ++ "]".data) ("``".data ++ r ++ "``".data) text
        else
          pyReplace ("[".data ++ r ++ "]".data)
            ("[``".data ++ r ++ "``](".data ++ s.path ++ ")".data) text
      replaceLoop text sources rs (some m)

/-- `replace_references` of the orchestration front end
(src/app/main.py inside the src/ tree, lines 39-78).  The whole body is
wrapped in `try: ... except Exception: return text`, so the function is
total; an empty (or `None`) `sources` list takes the `re.sub` branch,
otherwise the loop above runs and `modified_text` is returned — or the
original text when the loop raised or never assigned it. -/
def replace_references (text : Str) (sources : List Source) : Str :=
  if sources.isEmpty then subCitations text
  else
    match replaceLoop text sources (findAllCitations text) none with
    | some m => m
    | none => text

end OrchApp

namespace ProductApp

/-- The `reference_lookup` dict of `replace_references`
(app/main.py, lines 89-91): a dict comprehension keyed by title, so on a
title collision the LAST entry wins; an empty list yields the empty dict. -/
def referenceLookup (references : List Source) (t : Str) : Option Str :=
  ((references.filter (fun s => s.title = t)).getLast?).map Source.path

/-- Worker for the replacement loop of `replace_references`
(app/main.py, lines 95-99): the running `answer` accumulates the
replacements; a missing lookup interpolates Python `None` as the string
`None` inside the link. -/
def replaceLoop (references : List Source) : List Str → Str → Str
  | [], answer => answer
  | r :: rs, answer =>
    let path := match referenceLookup references r with
      | some p => p
      | none => "None".data
    replaceLoop references rs
      (pyReplace ("[".data ++ r ++ "]".data)
        ("[``".data ++ r ++ "``](".data ++ path ++ ")".data) answer)

/-- `replace_references` of the product-info front end
(app/main.py, lines 77-101): build the title-to-path dict, find every
citation token in the answer, and rewrite each one in turn as
`[``token``](path)` — interpolating `None` when the lookup misses. -/
def replace_references (answer : Str) (references : List Source) : Str :=
  replaceLoop references (findAllCitations answer) answer

end ProductApp

/-!
The search request payload.  Both clients build the same JSON dict for the
search call (src/rag/utilities.py lines 141-157, src/orchestration/
utilities.py lines 206-222); the payload is modelled as a typed record in
which the `top` field keeps its Python type: a `JPrim` that is either a
JSON string or a JSON integer.  In the source, `number_of_documents` is a
`str` parameter whose default is the string `"5"`, and it is placed in the
payload unconverted. -/

/-- A primitive JSON value: distinguishes the string `"5"` from the
integer `5` on the wire. -/
inductive JPrim
  | jstr (s : Str)
  | jint (n : Int)
deriving DecidableEq, Repr

/-- Whether a primitive JSON value is an integer. -/
def JPrim.isIntVal : JPrim → Bool
  | .jint _ => true
  | .jstr _ => false

/-- One entry of the `vectorQueries` array of the search request. -/
structure VectorQuery where
  kind : Str
  k : Int
  fields : Str
  vector : List Int
deriving DecidableEq, Repr

/-- The body of the search request as built by both clients: `top` is the
`number_of_documents` argument as given (a Python `str`), and
`vectorQueries` is a single vector query with `k` hard-coded to `50`. -/
structure SearchRequest where
  search : Str
  select : Str
  queryType : Str
  semanticConfiguration : Str
  captions : Str
  answers : Str
  top : JPrim
  vectorQueries : List VectorQuery
deriving DecidableEq, Repr

/-- The search request dict
(src/rag/utilities.py lines 141-157 and src/orchestration/utilities.py
lines 206-222 build exactly this payload). -/
def build_search_request (indexName searchQuery : Str) (embedding : List Int)
    (numberOfDocuments selectedFields : Str) : SearchRequest :=
  { search := searchQuery
    select := selectedFields
    queryType := "semantic".data
    semanticConfiguration := indexName ++ "-semantic-configuration".data
    captions := "extractive".data
    answers := "extractive".data
    top := JPrim.jstr numberOfDocuments
    vectorQueries := [⟨"vector".data, 50, "vector".data, embedding⟩] }

namespace RagClient

/-- A `{title, path}` reference dict attached to a user message by
`update_message_history`. -/
structure RagRef where
  title : Str
  path : Str
deriving DecidableEq, Repr

/-- A message role. -/
inductive Role
  | system
  | user
  | assistant
deriving DecidableEq, Repr

/-- A message dict of the RAG client history: `references` is `some` when
the dict carries a `references` key and `none` when it does not (the
assistant messages built by `update_message_history` carry no such key). -/
structure RagMsg where
  role : Role
  content : Str
  references : Option (List RagRef)
deriving DecidableEq, Repr

/-- The `# Filter search documents` step of `retrieve_documents`
(src/rag/utilities.py lines 164-168): a list comprehension rebuilding each
document as `{"title": doc["title"], "path": doc["path"], "chunk":
doc["chunk"]}`.  A subscript on a missing key raises `KeyError`, so an
item missing any of the three fields makes the whole call raise rather
than being dropped. -/
def projectDocuments : List RawDoc → Except PyErr (List Doc)
  | [] => .ok []
  | d :: ds =>
    match d.title, d.path, d.chunk with
    | some t, some p, some c =>
      match projectDocuments ds with
      | .ok rest => .ok (⟨t, p, c⟩ :: rest)
      | .error e => .error e
    | _, _, _ => .error .keyErr

/-- `RetrievalAugmentedGenerationClient.retrieve_documents`
(src/rag/utilities.py lines 92-170): three sequential calls — search-query
reformulation, embedding, search — each followed by `raise_for_status()`,
so a failed call raises and aborts the method; then the projection above.
The string parameters shape only the request bodies (see
`build_search_request`), not the control flow. -/
def retrieve_documents (net : Net) (_question _numberOfDocuments _selectedFields : Str) :
    Except PyErr (List Doc) :=
  match net.chatQueryResult with
  | none => .error .request
  | some _searchQuery =>
    match net.embeddingResult with
    | none => .error .request
    | some _embedding =>
      match net.searchResult with
      | none => .error .request
      | some raws => projectDocuments raws

/-- `RetrievalAugmentedGenerationClient.generate_response`
(src/rag/utilities.py lines 205-245): one chat call; the history enters
only the request body (roles and contents), the returned value is the
first choice content; a failed call raises. -/
def generate_response (net : Net) (_augmented_prompt : Str)
    (_message_history : List RagMsg) : Except PyErr Str :=
  match net.chatAnswerResult with
  | none => .error .request
  | some answer => .ok answer

/-- `RetrievalAugmentedGenerationClient.update_message_history`
(src/rag/utilities.py lines 247-284): project the retrieved documents to
`{title, path}` references, build the augmented user message (carrying the
references) and the assistant message (carrying none), and return the OLD
history plus the two messages — `message_history + [user_message,
agent_message]` builds a new list and never mutates its operand. -/
def update_message_history (message_history : List RagMsg)
    (augmented_prompt response : Str) (retrieved_documents : List Doc) :
    List RagMsg :=
  let references := retrieved_documents.map (fun d => RagRef.mk d.title d.path)
  let user_message : RagMsg := ⟨Role.user, augmented_prompt, some references⟩
  let agent_message : RagMsg := ⟨Role.assistant, response, none⟩
  message_history ++ [user_message, agent_message]

/-- `RetrievalAugmentedGenerationClient.get_answer`
(src/rag/utilities.py lines 286-315): retrieve (with the default
`number_of_documents="5"` and `selected_fields="title,path,chunk"`),
augment, generate, and only then append to the history.  Any exception
raised by an earlier stage propagates out before `update_message_history`
runs. -/
def get_answer (net : Net) (question : Str) (message_history : List RagMsg) :
    Except PyErr (List RagMsg) :=
  match retrieve_documents net question "5".data "title,path,chunk".data with
  | .error e => .error e
  | .ok retrieved_documents =>
    let augmented_prompt := augment_prompt question retrieved_documents
    match generate_response net augmented_prompt message_history with
    | .error e => .error e
    | .ok response =>
      .ok (update_message_history message_history augmented_prompt response
        retrieved_documents)

end RagClient

namespace OrchClient

/-- A reference dict built by `generate_chat_response`
(src/orchestration/utilities.py lines 337-340): the dict comprehension
`{k: v for k, v in d.items() if k in ("title", "path")}` keeps whichever
of the two keys the raw document has, so either field may be absent. -/
structure OrchRef where
  title : Option Str
  path : Option Str
deriving DecidableEq, Repr

/-- A message dict of the orchestration client history. -/
structure OrchMsg where
  role : RagClient.Role
  content : PyVal
  references : Option (List OrchRef)
deriving DecidableEq, Repr

/-- `OrchestrationClient.generate_search_query`
(src/orchestration/utilities.py lines 101-141): the chat call wrapped in
`try/except RequestException`; on failure it prints and falls through,
returning Python `None` — modelled as `none`. -/
def generate_search_query (net : Net) (_user_input : Str) : Option Str :=
  net.chatQueryResult

/-- `OrchestrationClient.get_embedding`
(src/orchestration/utilities.py lines 143-178): same shape; returns
`None` on a request failure. -/
def get_embedding (net : Net) (_search_query : Option Str) : Option (List Int) :=
  net.embeddingResult

/-- `OrchestrationClient.get_documents`
(src/orchestration/utilities.py lines 180-241): on success returns the
raw `response_payload["value"]` list UNFILTERED; on a request failure the
`except` clause returns Python `False` — modelled as `none`. -/
def get_documents (net : Net) (_search_query : Option Str)
    (_embedding : Option (List Int)) (_numberOfDocuments _selectedFields : Str) :
    Option (List RawDoc) :=
  net.searchResult

/-- The chunk clean-up of `generate_user_prompt`
(src/orchestration/utilities.py line 257):
`doc["chunk"].replace("\n", " ").replace("*", "").replace("#", "")`. -/
def cleanChunk (c : Str) : Str :=
  pyReplace "#".data [] (pyReplace "*".data [] (pyReplace "\n".data " ".data c))

/-- The `sources` accumulation of `generate_user_prompt`
(src/orchestration/utilities.py lines 254-258): one
`f"{doc['title']}:{doc['path']}:{chunk}\n"` line per document in order; a
document missing a field makes the subscript raise `KeyError`. -/
def sourceLines : List RawDoc → Except PyErr Str
  | [] => .ok []
  | d :: ds =>
    match d.title, d.path, d.chunk with
    | some t, some p, some c =>
      match sourceLines ds with
      | .ok rest => .ok (t ++ ":".data ++ p ++ ":".data ++ cleanChunk c ++ "\n".data ++ rest)
      | .error e => .error e
    | _, _, _ => .error .keyErr

/-- `OrchestrationClient.generate_user_prompt`
(src/orchestration/utilities.py lines 243-260): note the TWO newlines
before `Sources:` (`f"{user_input}\n\nSources:\n{sources}"`), unlike the
RAG client. -/
def generate_user_prompt (user_input : Str) (search_results : List RawDoc) :
    Except PyErr Str :=
  match sourceLines search_results with
  | .ok s => .ok (user_input ++ "\n\nSources:\n".data ++ s)
  | .error e => .error e

/-- `OrchestrationClient.generate_assistant_response`
(src/orchestration/utilities.py lines 262-310): one chat call on the
current history; on a request failure the `except` clause returns Python
`False` — modelled as `none`. -/
def generate_assistant_response (net : Net) (_message_history : List OrchMsg) :
    Option Str :=
  net.chatAnswerResult

/-- `OrchestrationClient.generate_chat_response`
(src/orchestration/utilities.py lines 312-365), with the caller-visible
message list made explicit.  The result is `(exception?, messages)`: the
first component is `some e` when an exception escapes the method (its
`except` clause catches only `RequestException`, which the inner calls
already swallow, so an `IndexError` from `[-1]` on an empty history or
the `TypeError` from iterating the `False` returned by a failed
`get_documents` propagate), and the second component is the state of the
`message_history["messages"]` list THE CALLER STILL HOLDS when the method
returns — the method mutates it in place with `pop()` and `append(...)`:
it replaces the latest user turn by the augmented prompt (carrying the
projected references) and then appends an assistant turn whose content is
the generation result — the Python constant `False` when that call
failed. -/
def generate_chat_response (net : Net) (messages : List OrchMsg) :
    Option PyErr × List OrchMsg :=
  match messages.getLast? with
  | none => (some .indexErr, messages)
  | some latest =>
    let latest_user_input := latest.content.interp
    let search_query := generate_search_query net latest_user_input
    let embedding := get_embedding net search_query
    match get_documents net search_query embedding "5".data "title,path,chunk".data with
    | none => (some .typeErr, messages)
    | some search_documents =>
      let refs := search_documents.map (fun d => OrchRef.mk d.title d.path)
      match generate_user_prompt latest_user_input search_documents with
      | .error e => (some e, messages)
      | .ok updated_user_prompt =>
        let afterPop := messages.dropLast ++
          [⟨RagClient.Role.user, PyVal.str updated_user_prompt, some refs⟩]
        let content : PyVal :=
          match generate_assistant_response net afterPop with
          | some answer => PyVal.str answer
          | none => PyVal.pyFalse
        (none, afterPop ++ [⟨RagClient.Role.assistant, content, none⟩])

end OrchClient

/-!
Claim theorems.
-/

/-- C2, counterexample: on the scenario input, `augment_prompt` does NOT
return the string claimed by the spec — the code terminates every source
record with a ` ||` record separator before the newline, which the claimed
string lacks. -/
theorem c2_counterexample :
    RagClient.augment_prompt "What is the return policy?".data
        [⟨"policy.md".data, "/docs/policy.md".data,
          "Items may be returned within 30 days.".data⟩] ≠
      "What is the return policy?\nSources:\npolicy.md :: /docs/policy.md :: items may returned within 30 days\n".data := by
  decide

/-- C2, amended: for the scenario question and document, `augment_prompt`
returns the question, the `Sources:` header, and the record
`policy.md :: /docs/policy.md :: items may returned within 30 days ||`
followed by a newline — the chunk case-folded, punctuation stripped and
NLTK English stop words removed, and the record terminated by the
separator ` ||\n`. -/
theorem c2_augment_scenario :
    RagClient.augment_prompt "What is the return policy?".data
        [⟨"policy.md".data, "/docs/policy.md".data,
          "Items may be returned within 30 days.".data⟩] =
      "What is the return policy?\nSources:\npolicy.md :: /docs/policy.md :: items may returned within 30 days ||\n".data := by
  decide

/-- C6: `augment_prompt` is the question, then `\nSources:\n`, then one
serialized record per document in exactly the order supplied: the empty
document list yields the question followed by `Sources:` and a newline
with nothing after it, a singleton appends exactly its record, appending
further documents appends exactly their records in order, and an empty
search result makes `retrieve_documents` return `ok []`, not an error. -/
theorem c6_augment_structure :
    (∀ q : Str, RagClient.augment_prompt q [] = q ++ "\nSources:\n".data) ∧
    (∀ (q : Str) (d : Doc),
      RagClient.augment_prompt q [d] =
        q ++ "\nSources:\n".data ++ RagClient.sourceRecord d) ∧
    (∀ (q : Str) (ds es : List Doc),
      RagClient.augment_prompt q (ds ++ es) =
        RagClient.augment_prompt q ds ++ (es.map RagClient.sourceRecord).flatten) ∧
    (∀ (cq : Str) (emb : List Int) (ca : Option Str) (q n f : Str),
      RagClient.retrieve_documents ⟨some cq, some emb, some [], ca⟩ q n f =
        .ok []) := by
  refine ⟨?_, ?_, ?_, ?_⟩ <;> intros <;>
    simp [RagClient.augment_prompt, RagClient.retrieve_documents,
      RagClient.projectDocuments, List.append_assoc]

/-- C3, counterexample: on the scenario input with empty references,
neither `replace_references` variant produces the claimed
single-backtick rendering — the orchestration front end emits double
backticks and the product-info front end emits a spurious
markdown link to `None`. -/
theorem c3_counterexample :
    OrchApp.replace_references "See [missing.md] for details.".data [] ≠
      "See `missing.md` for details.".data ∧
    ProductApp.replace_references "See [missing.md] for details.".data [] ≠
      "See `missing.md` for details.".data := by
  decide

/-- C3, amended: with empty references the orchestration front end
rewrites the scenario token to a DOUBLE-backticked label with the
brackets removed; with non-empty references and no matching title its
lookup raises and the caught exception makes it return the input
unchanged, raw bracket included; and the product-info front end rewrites
the unmatched token to a markdown link whose target is the interpolated
Python `None`. -/
theorem c3_rewrite_fallbacks :
    OrchApp.replace_references "See [missing.md] for details.".data [] =
      "See ``missing.md`` for details.".data ∧
    OrchApp.replace_references "See [missing.md] for details.".data
        [⟨"policy.md".data, "/docs/policy.md".data⟩] =
      "See [missing.md] for details.".data ∧
    ProductApp.replace_references "See [missing.md] for details.".data [] =
      "See [``missing.md``](None) for details.".data := by
  decide

/-- C4, counterexample: with two distinct matched tokens the orchestration
front end leaves the first token raw (each loop iteration restarts from
the original text, so only the last replacement survives), hence its
output differs from the claimed every-token, single-backtick rewriting;
and on a title collision the product-info front end links the LAST
matching path, not the first. -/
theorem c4_counterexample :
    OrchApp.replace_references "See [a.md] and [b.md].".data
        [⟨"a.md".data, "/a".data⟩, ⟨"b.md".data, "/b".data⟩] =
      "See [a.md] and [``b.md``](/b).".data ∧
    OrchApp.replace_references "See [a.md] and [b.md].".data
        [⟨"a.md".data, "/a".data⟩, ⟨"b.md".data, "/b".data⟩] ≠
      "See [`a.md`](/a) and [`b.md`](/b).".data ∧
    ProductApp.replace_references "See [a.md].".data
        [⟨"a.md".data, "/p1".data⟩, ⟨"a.md".data, "/p2".data⟩] =
      "See [``a.md``](/p2).".data := by
  decide

/-- C4, amended: the product-info front end replaces every matched token,
each with the DOUBLE-backticked link `[``token``](path)` taking the path
of the LAST reference whose title equals the token; the orchestration
front end applies only the replacement of the last found token (its loop
restarts from the original text), as on the single-token scenario where
the two variants agree. -/
theorem c4_rewrite_actual :
    ProductApp.replace_references "See [a.md] and [b.md].".data
        [⟨"a.md".data, "/a".data⟩, ⟨"b.md".data, "/b".data⟩] =
      "See [``a.md``](/a) and [``b.md``](/b).".data ∧
    ProductApp.replace_references "See [a.md].".data
        [⟨"a.md".data, "/p1".data⟩, ⟨"a.md".data, "/p2".data⟩] =
      "See [``a.md``](/p2).".data ∧
    OrchApp.replace_references "See [policy.md] for details.".data
        [⟨"policy.md".data, "/docs/policy.md".data⟩] =
      "See [``policy.md``](/docs/policy.md) for details.".data := by
  decide

/-- C5, counterexample: citation rewriting is not idempotent.  For the
answer text `[a.md]md]` with an empty reference list, the product-info
front end first rewrites the (greedily matched) token `a.md]md` and the
rewritten text contains the fresh token `` ``a.md `` inside new brackets,
which a second run rewrites again, changing the text. -/
theorem c5_counterexample :
    ProductApp.replace_references
        (ProductApp.replace_references "[a.md]md]".data []) [] ≠
      ProductApp.replace_references "[a.md]md]".data [] := by
  decide

/-- C5, amended: idempotence fails in general (see the counterexample)
but holds on the scenario inputs of the spec: re-running either variant
on the already-rewritten scenario answer leaves it unchanged. -/
theorem c5_idempotent_scenarios :
    ProductApp.replace_references
        (ProductApp.replace_references "See [policy.md] for details.".data
          [⟨"policy.md".data, "/docs/policy.md".data⟩])
        [⟨"policy.md".data, "/docs/policy.md".data⟩] =
      ProductApp.replace_references "See [policy.md] for details.".data
        [⟨"policy.md".data, "/docs/policy.md".data⟩] ∧
    OrchApp.replace_references
        (OrchApp.replace_references "See [policy.md] for details.".data
          [⟨"policy.md".data, "/docs/policy.md".data⟩])
        [⟨"policy.md".data, "/docs/policy.md".data⟩] =
      OrchApp.replace_references "See [policy.md] for details.".data
        [⟨"policy.md".data, "/docs/policy.md".data⟩] := by
  decide

/-- If some found citation token has no matching title among the sources,
the replacement loop of the orchestration front end ends in the raised
state (the `IndexError` of the failed `[0]` lookup), whatever the loop
has assigned so far. -/
theorem orchLoop_unmatched (text : Str) (sources : List Source) :
    ∀ (refs : List Str) (acc : Option Str) (r0 : Str), r0 ∈ refs →
      (∀ s ∈ sources, ¬ s.title = r0) →
      OrchApp.replaceLoop text sources refs acc = none := by
  intro refs
  induction refs with
  | nil => intro acc r0 h0 _; cases h0
  | cons r rs ih =>
    intro acc r0 h0 hall
    cases hf : sources.filter (fun s => s.title = r) with
    | nil => simp [OrchApp.replaceLoop, hf]
    | cons s ss =>
      have hs : s ∈ sources.filter (fun s => s.title = r) := by
        rw [hf]; exact List.mem_cons_self s ss
      have hsr : s.title = r := by
        have := List.of_mem_filter hs
        simpa using this
      have hmem : r0 ∈ rs := by
        rcases List.mem_cons.mp h0 with h | h
        · exact absurd (hsr.trans h.symm) (hall s (List.mem_of_mem_filter hs))
        · exact h
      simp only [OrchApp.replaceLoop, hf]
      exact ih _ r0 hmem hall

/-- C10: the orchestration front end's `replace_references` is total (its
body is wrapped in a catch-all `try/except` returning the input), and in
particular when `sources` is non-empty but some found citation token
matches no source title, the raised lookup error is caught and the
original text is returned unchanged. -/
theorem c10_replace_references_fallback (text : Str) (sources : List Source)
    (hne : sources ≠ [])
    (h : ∃ r ∈ findAllCitations text, ∀ s ∈ sources, ¬ s.title = r) :
    OrchApp.replace_references text sources = text := by
  rcases h with ⟨r0, hr0, hall⟩
  cases sources with
  | nil => exact absurd rfl hne
  | cons s ss =>
    simp only [OrchApp.replace_references, List.isEmpty_cons, if_false, Bool.false_eq_true]
    rw [orchLoop_unmatched text (s :: ss) _ none r0 hr0 hall]

/-- C10, witness: the scenario text with a non-empty, non-matching
reference list is returned unchanged. -/
theorem c10_replace_references_fallback_witness :
    (([⟨"policy.md".data, "/docs/policy.md".data⟩] : List Source) ≠ [] ∧
      ∃ r ∈ findAllCitations "See [missing.md] for details.".data,
        ∀ s ∈ ([⟨"policy.md".data, "/docs/policy.md".data⟩] : List Source),
          ¬ s.title = r) ∧
    OrchApp.replace_references "See [missing.md] for details.".data
        [⟨"policy.md".data, "/docs/policy.md".data⟩] =
      "See [missing.md] for details.".data :=
  ⟨⟨by decide, by decide⟩,
    c10_replace_references_fallback _ _ (by decide) (by decide)⟩

/-- The projection of a raw document all of whose fields are present. -/
def forceDoc (d : RawDoc) : Doc :=
  ⟨d.title.getD [], d.path.getD [], d.chunk.getD []⟩

/-- C7, counterexample: a search response item missing its `chunk` field
is NOT dropped by the `# Filter search documents` step — the subscript
raises `KeyError`, so the whole retrieval call fails instead of
returning the filtered (empty) list the claim requires. -/
theorem c7_counterexample :
    RagClient.projectDocuments [⟨some "a".data, some "b".data, none⟩] =
      .error .keyErr ∧
    RagClient.projectDocuments [⟨some "a".data, some "b".data, none⟩] ≠
      .ok [] := by
  refine ⟨rfl, fun h => ?_⟩
  exact Except.noConfusion h

/-- C7, amended: when every response item carries all three fields, the
filter step of `retrieve_documents` returns them all, projected to
exactly `{title, path, chunk}`, in order; an item missing a field makes
the call raise `KeyError` (see the counterexample) rather than being
dropped, and the orchestration client's `get_documents` returns the
response items with no filtering at all. -/
theorem c7_project_all_present :
    ∀ raws : List RawDoc,
      (∀ d ∈ raws, d.title.isSome ∧ d.path.isSome ∧ d.chunk.isSome) →
      RagClient.projectDocuments raws = .ok (raws.map forceDoc) := by
  intro raws
  induction raws with
  | nil => intro _; rfl
  | cons d ds ih =>
    intro h
    obtain ⟨ht, hp, hc⟩ := h d (List.mem_cons_self d ds)
    obtain ⟨t, ht'⟩ := Option.isSome_iff_exists.mp ht
    obtain ⟨p, hp'⟩ := Option.isSome_iff_exists.mp hp
    obtain ⟨c, hc'⟩ := Option.isSome_iff_exists.mp hc
    have ihds := ih (fun x hx => h x (List.mem_cons_of_mem _ hx))
    simp [RagClient.projectDocuments, ht', hp', hc', ihds, forceDoc]

/-- C7, witness: a single fully populated response item passes the filter
step and is returned projected. -/
theorem c7_project_all_present_witness :
    (∀ d ∈ [(⟨some "t".data, some "p".data, some "c".data⟩ : RawDoc)],
        d.title.isSome ∧ d.path.isSome ∧ d.chunk.isSome) ∧
    RagClient.projectDocuments [⟨some "t".data, some "p".data, some "c".data⟩] =
      .ok ([(⟨some "t".data, some "p".data, some "c".data⟩ : RawDoc)].map forceDoc) :=
  ⟨by decide, c7_project_all_present _ (by decide)⟩

/-- C9, counterexample: the `top` field of the search request is the
Python string `"5"` by default, not an integer — `number_of_documents`
is a `str` parameter placed in the payload unconverted. -/
theorem c9_counterexample :
    (build_search_request "idx".data "q".data [] "5".data
        "title,path,chunk".data).top = JPrim.jstr "5".data ∧
    JPrim.isIntVal (build_search_request "idx".data "q".data [] "5".data
        "title,path,chunk".data).top = false :=
  ⟨rfl, rfl⟩

/-- C9, amended: every search request carries a `top` field equal to the
`number_of_documents` argument — a string whose default is `"5"` — and a
single vector query whose candidate pool size `k` is the integer `50`
regardless of that argument. -/
theorem c9_request_shape :
    ∀ (idx sq : Str) (emb : List Int) (num sel : Str),
      (build_search_request idx sq emb num sel).top = JPrim.jstr num ∧
      (build_search_request idx sq emb num sel).vectorQueries =
        [⟨"vector".data, 50, "vector".data, emb⟩] :=
  fun _ _ _ _ _ => ⟨rfl, rfl⟩

/-- C1, counterexample: the orchestration client does NOT leave the
caller's history unchanged when the generation stage fails.  With the
three retrieval stages succeeding and the chat (generation) call failing,
`generate_chat_response` still pops the raw user turn, appends the
augmented user turn, and appends an assistant turn whose content is the
Python constant `False`; the caller's message list afterwards differs
from the one passed in, and no exception signals the failure. -/
theorem c1_counterexample :
    (OrchClient.generate_chat_response
        ⟨some "q".data, some [], some [⟨some "t".data, some "p".data, some "c".data⟩],
          none⟩
        [⟨RagClient.Role.user, PyVal.str "hi".data, none⟩]).1 = none ∧
    (OrchClient.generate_chat_response
        ⟨some "q".data, some [], some [⟨some "t".data, some "p".data, some "c".data⟩],
          none⟩
        [⟨RagClient.Role.user, PyVal.str "hi".data, none⟩]).2 ≠
      [⟨RagClient.Role.user, PyVal.str "hi".data, none⟩] := by
  decide

/-- C1, amended: the RAG client's `get_answer` is all-or-nothing — for
every network outcome, question and history it either raises (returning
an error, with the append step never reached, so the caller's history is
what it was) or returns the input history extended by exactly the
augmented user turn and the assistant turn; the orchestration client's
`generate_chat_response` does not have this property (see the
counterexample). -/
theorem c1_rag_all_or_nothing :
    ∀ (net : Net) (q : Str) (h : List RagClient.RagMsg),
      (∃ e, RagClient.get_answer net q h = .error e) ∨
      (∃ docs ans, RagClient.get_answer net q h =
        .ok (h ++
          [⟨RagClient.Role.user, RagClient.augment_prompt q docs,
            some (docs.map (fun d => RagClient.RagRef.mk d.title d.path))⟩,
           ⟨RagClient.Role.assistant, ans, none⟩])) := by
  intro net q h
  cases hr : RagClient.retrieve_documents net q "5".data "title,path,chunk".data with
  | error e => exact Or.inl ⟨e, by simp [RagClient.get_answer, hr]⟩
  | ok docs =>
    cases hca : net.chatAnswerResult with
    | none =>
      exact Or.inl ⟨.request,
        by simp [RagClient.get_answer, hr, RagClient.generate_response, hca]⟩
    | some ans =>
      exact Or.inr ⟨docs, ans,
        by simp [RagClient.get_answer, hr, RagClient.generate_response, hca,
          RagClient.update_message_history]⟩

/-- C8, counterexample: the orchestration client's history update does
not yield the old history plus two turns — it pops the raw user turn
first, so a successful run over a one-message history returns two
messages, not three; and it performs the update by mutating the caller's
list in place. -/
theorem c8_counterexample :
    ((OrchClient.generate_chat_response
        ⟨some "q".data, some [], some [⟨some "t".data, some "p".data, some "c".data⟩],
          some "ans".data⟩
        [⟨RagClient.Role.user, PyVal.str "hi".data, none⟩]).2).length = 2 ∧
    ([(⟨RagClient.Role.user, PyVal.str "hi".data, none⟩ : OrchClient.OrchMsg)]).length
        = 1 ∧
    (OrchClient.generate_chat_response
        ⟨some "q".data, some [], some [⟨some "t".data, some "p".data, some "c".data⟩],
          some "ans".data⟩
        [⟨RagClient.Role.user, PyVal.str "hi".data, none⟩]).1 = none := by
  decide

/-- C8, amended: the RAG client's `update_message_history` returns a new
list equal to the old history plus exactly two turns — the user turn
carrying the augmented prompt and the `{title, path}` projections of the
retrieved documents in retrieval order, and the assistant turn carrying
the raw answer and no references — and each reference occurs exactly as
many times as a document projecting to it occurs in the input (no
duplicates beyond the input); the orchestration client instead updates
the history in place, replacing the latest user turn (see the
counterexample). -/
theorem c8_update_history_shape :
    ∀ (h : List RagClient.RagMsg) (aug ans : Str) (docs : List Doc),
      RagClient.update_message_history h aug ans docs =
        h ++
          [⟨RagClient.Role.user, aug,
            some (docs.map (fun d => RagClient.RagRef.mk d.title d.path))⟩,
           ⟨RagClient.Role.assistant, ans, none⟩] ∧
      ∀ r : RagClient.RagRef,
        (docs.map (fun d => RagClient.RagRef.mk d.title d.path)).count r =
          docs.countP (fun d => RagClient.RagRef.mk d.title d.path == r) := by
  intro h aug ans docs
  refine ⟨rfl, fun r => ?_⟩
  induction docs with
  | nil => rfl
  | cons d ds ih => simp [List.count_cons, List.countP_cons, ih]
